import Mathlib

/-!
Verification development for the SafeChoice allergen-detection pipeline
(`allergens/views.py`).

The detector `detect_allergens_from_ingredients` and the orchestrator
`upload_base64` are shallowly embedded here.  The machine-learning
artifacts (TF-IDF vectorizer, BERT embedder, XGBoost/ensemble classifier,
label binarizer, `rapidfuzz` ratio, `scipy` cosine similarity, `inflect`
singularization) are black boxes loaded at process start; they are
modelled as oracle functions collected in a structure.  Every oracle is
`Except`-valued so that a Python exception raised inside the detector's
`try` block is representable; the detector's `except` clause is the
`Except` handler at the top level of the embedding.
-/

set_option maxHeartbeats 1000000

/-- Oracle bundle for the process-wide ML artifacts used by
`detect_allergens_from_ingredients`.  `Sparse`, `Dense`, `Combined`,
`Bin` abstract the vector types produced by the vectorizer, the BERT
embedder, `hstack`, and `model.predict` respectively.  Each field is the
black-box function the Python code calls, `Except`-valued to model a
possible exception. -/
structure Oracles (Sparse Dense Combined Bin : Type) where
  /-- `inflect_engine.singular_noun`: `none` models the Python `False`
  returned for a word it does not singularize. -/
  singular : String → Except String (Option String)
  /-- `vectorizer.transform([text])` -/
  tfidf : String → Except String Sparse
  /-- `generate_bert_embedding(text)` -/
  embed : String → Except String Dense
  /-- `hstack([X_tfidf, X_bert])` (pure combination) -/
  hstackF : Sparse → Dense → Combined
  /-- `model.predict(X_combined)` -/
  predictF : Combined → Except String Bin
  /-- `mlb.inverse_transform(binary)[0]` -/
  inverse : Bin → Except String (List String)
  /-- `cosine_similarity(X_bert, [emb])[0][0]` -/
  cosine : Dense → Dense → Except String ℚ
  /-- `fuzz.ratio(a, b)` on the scale `[0, 100]` -/
  ratio : String → String → Except String ℚ

/-- `str.lower()`, written over the character list so that it evaluates
by kernel reduction (same ASCII mapping as `String.toLower`). -/
def pyLower (s : String) : String := String.mk (s.data.map Char.toLower)

/-- `normalize_allergen`: lower-case, then singularize; if the
singularizer returns a falsy value (`False`, modelled `none`, or an empty
string) keep the lower-cased input. -/
def normalize_allergen {S D C B : Type} (O : Oracles S D C B)
    (allergen : String) : Except String String := do
  let lowered := pyLower allergen
  let s ← O.singular lowered
  pure (match s with
        | none => lowered
        | some t => if t = "" then lowered else t)

/-- Sequential effectful map, the embedding of a Python list
comprehension whose body may raise. -/
def mapME {α β : Type} (f : α → Except String β) :
    List α → Except String (List β)
  | [] => .ok []
  | a :: l => do
      let b ← f a
      let r ← mapME f l
      pure (b :: r)

/-- Inner loop of the detector: for one user allergen, walk the
predicted labels and add every label whose fuzzy ratio with the allergen
exceeds 85. -/
def fuzzyLoop {S D C B : Type} (O : Oracles S D C B) (allergen : String)
    (predicted : List String) (acc : Finset String) :
    Except String (Finset String) :=
  match predicted with
  | [] => .ok acc
  | p :: rest => do
      let r ← O.ratio allergen p
      fuzzyLoop O allergen rest (if r > 85 then insert p acc else acc)

/-- Outer loop of the detector: for each (user allergen, its embedding)
pair, add the allergen when its cosine similarity with the ingredient
embedding exceeds 0.8, then run the fuzzy inner loop over the predicted
labels. -/
def mainLoop {S D C B : Type} (O : Oracles S D C B) (X_bert : D)
    (predicted : List String) (pairs : List (String × D))
    (acc : Finset String) : Except String (Finset String) :=
  match pairs with
  | [] => .ok acc
  | (allergen, emb) :: rest => do
      let s ← O.cosine X_bert emb
      let acc1 := if s > 0.8 then insert allergen acc else acc
      let acc2 ← fuzzyLoop O allergen predicted acc1
      mainLoop O X_bert predicted rest acc2

/-- Body of the `try` block of `detect_allergens_from_ingredients`:
normalize the user allergens, build the fused features of the joined
ingredient text, embed each user allergen, classify, normalize the
predicted labels, run the two similarity loops, and finally union in the
exact intersection of predicted labels and user allergens. -/
def detectE {S D C B : Type} (O : Oracles S D C B)
    (user_allergens ingredients : List String) :
    Except String (Finset String) := do
  let users ← mapME (normalize_allergen O) user_allergens
  let ingredient_text := String.intercalate (", ") ingredients
  let X_tfidf ← O.tfidf ingredient_text
  let X_bert ← O.embed ingredient_text
  let X_combined := O.hstackF X_tfidf X_bert
  let user_allergen_embeddings ← mapME O.embed users
  let predicted_binary ← O.predictF X_combined
  let raw ← O.inverse predicted_binary
  let predicted_allergens ← mapME (normalize_allergen O) raw
  let detected ← mainLoop O X_bert predicted_allergens
      (users.zip user_allergen_embeddings) ∅
  pure (detected ∪ (predicted_allergens.toFinset ∩ users.toFinset))

/-- The dictionary returned by `detect_allergens_from_ingredients`.
Each Python key is an optional field; the success path fills
`detected_allergens` and `safe`, the `except` path fills `error` and
`safe`. -/
structure DetectDict where
  detected_allergens : Option (Finset String)
  safe : Option Bool
  error : Option String
deriving DecidableEq

/-- `detect_allergens_from_ingredients`: run the `try` body; on success
return `{detected_allergens, safe: not bool(detected)}`, on an exception
return `{error: str(e), safe: False}`. -/
def detect_allergens_from_ingredients {S D C B : Type} (O : Oracles S D C B)
    (user_allergens ingredients : List String) : DetectDict :=
  match detectE O user_allergens ingredients with
  | .ok detected =>
      { detected_allergens := some detected
        safe := some (decide (detected = ∅))
        error := none }
  | .error e =>
      { detected_allergens := none
        safe := some false
        error := some e }

/-- Reassembled pipeline for the classifier-predicted labels: the chain
of calls of `detect_allergens_from_ingredients` that produces the
normalized predicted-label list (independent of the user allergens). -/
def predictedLabels {S D C B : Type} (O : Oracles S D C B)
    (ingredients : List String) : Except String (List String) := do
  let ingredient_text := String.intercalate (", ") ingredients
  let X_tfidf ← O.tfidf ingredient_text
  let X_bert ← O.embed ingredient_text
  let predicted_binary ← O.predictF (O.hstackF X_tfidf X_bert)
  let raw ← O.inverse predicted_binary
  mapME (normalize_allergen O) raw

/-- The cosine similarity the detector compares against 0.8 for one user
allergen: embed the joined ingredient text, embed the allergen, take
their cosine similarity. -/
def userSimilarity {S D C B : Type} (O : Oracles S D C B)
    (ingredients : List String) (u : String) : Except String ℚ := do
  let X_bert ← O.embed (String.intercalate (", ") ingredients)
  let e ← O.embed u
  O.cosine X_bert e

/-- Boolean form of the embedding-similarity rule for one user
allergen. -/
def simHit {S D C B : Type} (O : Oracles S D C B)
    (ingredients : List String) (u : String) : Bool :=
  match userSimilarity O ingredients u with
  | .ok r => decide (r > 0.8)
  | .error _ => false

/-- Boolean form of the fuzzy-ratio rule for one (user allergen,
predicted label) pair. -/
def ratioHit {S D C B : Type} (O : Oracles S D C B) (a p : String) : Bool :=
  match O.ratio a p with
  | .ok r => decide (r > 85)
  | .error _ => false

/-- Boolean form of the cosine rule at the level of already-computed
embeddings, as the main loop evaluates it. -/
def cosHit {S D C B : Type} (O : Oracles S D C B) (xb e : D) : Bool :=
  match O.cosine xb e with
  | .ok r => decide (r > 0.8)
  | .error _ => false

/-! ## Orchestrator embedding (`upload_base64` and its collaborators) -/

/-- `pattern.isPrefixOf s`, written over character lists so that it
evaluates by kernel reduction. -/
def strHasPre (s pat : String) : Bool := pat.data.isPrefixOf s.data

/-- `is_url`: `re.match(r'^https?://', data)`. -/
def is_url (data : String) : Bool :=
  strHasPre data ("http://") || strHasPre data ("https://")

/-- `BarcodeReader`, from the decoder's output (the `data` strings of
the decoded barcodes) onward.  An empty decode list yields the sentinel
string; otherwise the first non-URL datum, or `none` (Python `None`)
when every decoded datum is a URL. -/
def BarcodeReader (decoded : List String) : Option String :=
  if decoded.isEmpty then some ("error:barcode not detected")
  else (decoded.filter (fun d => !is_url d)).head?

/-- `text.split(",")`: split on every comma, written by structural
recursion on the character list so that it evaluates by kernel
reduction.  Like Python, the empty string splits to `[""]`. -/
def splitCommaAux : List Char → List Char → List String
  | [], acc => [String.mk acc.reverse]
  | c :: rest, acc =>
      if c = ',' then String.mk acc.reverse :: splitCommaAux rest []
      else splitCommaAux rest (c :: acc)

/-- `text.split(",")` over a `String`. -/
def pySplitComma (s : String) : List String := splitCommaAux s.data []

/-- `str.strip()`: drop leading and trailing whitespace. -/
def pyStrip (s : String) : String :=
  String.mk (((s.data.dropWhile Char.isWhitespace).reverse.dropWhile
    Char.isWhitespace).reverse)

/-- A JSON leaf value appearing in the nutrient tables (the Python code
mixes formatted strings and raw numbers). -/
inductive JVal where
  | s (v : String)
  | q (v : ℚ)
deriving DecidableEq

/-- The decoded JSON of a successful Open Food Facts API response, as
far as `mock_get_ingredients` reads it.  `Option` fields model keys read
with `.get` (or, for `brands`, read by direct indexing, whose absence
raises `KeyError`). -/
structure ApiData where
  status : Int
  ingredients_text : String
  brands : Option String
  product_name : Option String
  image_small_url : Option String
  nutriments : List (String × ℚ)
deriving DecidableEq

/-- `nutrients.get(key, 0)` -/
def nutriGet (d : ApiData) (k : String) : ℚ :=
  (d.nutriments.lookup k).getD 0

/-- The tuple `mock_get_ingredients` returns on success. -/
structure ProductInfo where
  ingredients : List String
  brands : String
  product_name : String
  image : String
  nutrients_display : List (String × JVal)
  nutrients_data : List (String × ℚ)
deriving DecidableEq

/-- The `nutrients_data["value"]` list (named `Nutri` by the caller). -/
def nutrientsDataOf (d : ApiData) : List (String × ℚ) :=
  [("energy", nutriGet d ("energy-kcal_100g")),
   ("Fat", nutriGet d ("fat_100g")),
   ("Carbohydrates", nutriGet d ("carbohydrates_100g")),
   ("Fruits&vegetables&nuts",
     nutriGet d ("fruits-vegetables-nuts-estimate-from-ingredients_100g")),
   ("Proteins", nutriGet d ("proteins_100g")),
   ("Saturated Fat", nutriGet d ("saturated-fat_100g")),
   ("Sodium", nutriGet d ("sodium_100g")),
   ("Sugar", nutriGet d ("sugars_100g")),
   ("Fiber", nutriGet d ("fiber_100g")),
   ("Salt", nutriGet d ("salt_100g"))]

/-- The `nutrients_display["value"]` list: formatted strings, except the
fruits/vegetables/nuts entry which stays a raw number. -/
def nutrientsDisplayOf (d : ApiData) : List (String × JVal) :=
  [("energy", JVal.s (toString (nutriGet d ("energy-kcal_100g")) ++ " Kcal")),
   ("Fat", JVal.s (toString (nutriGet d ("fat_100g")) ++ " g")),
   ("Carbohydrates", JVal.s (toString (nutriGet d ("carbohydrates_100g")) ++ " g")),
   ("Fruits&vegetables&nuts",
     JVal.q (nutriGet d ("fruits-vegetables-nuts-estimate-from-ingredients_100g"))),
   ("Proteins", JVal.s (toString (nutriGet d ("proteins_100g")) ++ " g")),
   ("Saturated Fat", JVal.s (toString (nutriGet d ("saturated-fat_100g")) ++ " g")),
   ("Sodium", JVal.s (toString (nutriGet d ("sodium_100g")) ++ " g")),
   ("Sugar", JVal.s (toString (nutriGet d ("sugars_100g")) ++ " g"))]

/-- `mock_get_ingredients`: its whole body is wrapped in `try`; a
transport/JSON failure (`Except.error`), a `status != 1`, or a missing
`brands` key (a `KeyError` caught by the same `except`) all yield
`None`.  On success it returns the product tuple, with `ingredients_text`
split on commas and each piece stripped. -/
def mock_get_ingredients (resp : Except String ApiData) : Option ProductInfo :=
  match resp with
  | .error _ => none
  | .ok d =>
      if d.status ≠ 1 then none
      else
        match d.brands with
        | none => none
        | some b =>
            some { ingredients := (pySplitComma d.ingredients_text).map
                     (fun ing => pyStrip ing)
                   brands := b
                   product_name := d.product_name.getD ("")
                   image := d.image_small_url.getD ("No image available")
                   nutrients_display := nutrientsDisplayOf d
                   nutrients_data := nutrientsDataOf d }

/-- The feature record handed to the XGBoost scorer (`user_input`).
The six profile fields are hard-coded constants in `upload_base64`; the
four product fields are read from `Nutri["value"]` at fixed indices. -/
structure UserInput where
  sugar_level : ℚ
  cholesterol_level : ℚ
  blood_pressure : ℚ
  bmi : ℚ
  age : ℚ
  heart_rate : ℚ
  sugar_in_product : ℚ
  salt_in_product : ℚ
  saturated_fat_in_product : ℚ
  carbohydrates_in_product : ℚ
deriving DecidableEq

/-- `Nutri["value"][i]["value"]` -/
def nutriValueAt (info : ProductInfo) (i : Nat) : ℚ :=
  ((info.nutrients_data.get? i).map Prod.snd).getD 0

/-- The `user_input` dictionary built in `upload_base64`. -/
def userInputOf (info : ProductInfo) : UserInput :=
  { sugar_level := 12
    cholesterol_level := 23
    blood_pressure := 33
    bmi := 44
    age := 44
    heart_rate := 55
    sugar_in_product := nutriValueAt info 7
    salt_in_product := nutriValueAt info 9
    saturated_fat_in_product := nutriValueAt info 5
    carbohydrates_in_product := nutriValueAt info 2 }

/-- The JSON produced by `identify_harmful_ingredients` (black box: an
LLM call with internal fallbacks, it always returns this shape). -/
structure GenOut where
  hazard : String
  long : String
  recommend : String
deriving DecidableEq

/-- External calls the orchestrator can make after the barcode stage,
recorded in order. -/
inductive ExtCall where
  | productLookup (barcode : Option String)
  | narrativeGen
  | detectCall
  | scoreCall
deriving DecidableEq

/-- The JSON document `upload_base64` assembles on its success path.
There is no error or diagnostic field in this shape; the allergen entry
is `result.get("detected_allergens", [])` and the safe entry is
`result.get("safe", True)`. -/
structure SuccessBody where
  code : Option String
  brandName : String
  name : String
  ingredients : List String
  image : String
  nutrients : List (String × JVal)
  nutriData : List (String × ℚ)
  score : Int
  allergens : Finset String
  safe : Bool
  hazard : String
  long : String
  recommend : String
  generated : GenOut
deriving DecidableEq

/-- The three response shapes `upload_base64` can produce once an image
has been saved and cropped: the typed barcode failure (HTTP 400), the
catch-all `{"error": "Failed to decode and save image: ..."}` (HTTP
400), and the success document (HTTP 200). -/
inductive Response where
  | barcodeError
  | genericError (msg : String)
  | success (body : SuccessBody)
deriving DecidableEq

/-- The `safe` entry of a response, when it has one. -/
def Response.safeField : Response → Option Bool
  | .success body => some body.safe
  | _ => none

/-- The diagnostic message a response carries, when it has one. -/
def Response.diagnostic : Response → Option String
  | .genericError msg => some msg
  | _ => none

/-- `upload_base64` from the barcode-reading stage onward: read the
barcode from the decoded data, short-circuit on the sentinel, look up
the product, call the hazard-narrative generator, run the allergen
detector on the hard-coded `["milk"]` user allergens, score with
XGBoost, and assemble the response.  A `None` product tuple makes the
unpacking at the call site raise, and the scorer may raise; both are
caught by the function-level `except`, which produces the generic
`"Failed to decode and save image: ..."` error.  The second component
records the external calls made. -/
def upload_pipeline {S D C B : Type} (decoded : List String)
    (fetch : Option String → Except String ApiData)
    (gen : GenOut) (xg : UserInput → Except String Int)
    (O : Oracles S D C B) : Response × List ExtCall :=
  let barcode_info := BarcodeReader decoded
  if barcode_info = some ("error:barcode not detected") then
    (Response.barcodeError, [])
  else
    match mock_get_ingredients (fetch barcode_info) with
    | none =>
        (Response.genericError
          ("Failed to decode and save image: cannot unpack non-iterable NoneType object"),
         [ExtCall.productLookup barcode_info])
    | some info =>
        let gen_openai := gen
        let user_input := userInputOf info
        let det := detect_allergens_from_ingredients O ["milk"] info.ingredients
        match xg user_input with
        | .error e =>
            (Response.genericError ("Failed to decode and save image: " ++ e),
             [ExtCall.productLookup barcode_info, ExtCall.narrativeGen,
              ExtCall.detectCall])
        | .ok n =>
            (Response.success
              { code := barcode_info
                brandName := info.brands
                name := info.product_name
                ingredients := info.ingredients
                image := info.image
                nutrients := info.nutrients_display
                nutriData := info.nutrients_data
                score := n
                allergens := det.detected_allergens.getD ∅
                safe := det.safe.getD true
                hazard := gen_openai.hazard
                long := gen_openai.long
                recommend := "Maximum of once a week"
                generated := gen_openai },
             [ExtCall.productLookup barcode_info, ExtCall.narrativeGen,
              ExtCall.detectCall, ExtCall.scoreCall])



/-! ## Concrete fixtures used by witnesses and counterexamples -/

/-- All-trivial oracle bundle: singularization never fires, the
classifier predicts no labels, both similarities are 0. -/
def trivOracles : Oracles Unit Unit Unit Unit :=
  { singular := fun _ => .ok none
    tfidf := fun _ => .ok ()
    embed := fun _ => .ok ()
    hstackF := fun _ _ => ()
    predictF := fun _ => .ok ()
    inverse := fun _ => .ok []
    cosine := fun _ _ => .ok 0
    ratio := fun _ _ => .ok 0 }

/-- `trivOracles` with embedding similarity 9/10, above the 0.8
threshold. -/
def simOracles : Oracles Unit Unit Unit Unit :=
  { trivOracles with cosine := fun _ _ => .ok (9/10) }

/-- `trivOracles` with embedding similarity exactly 0.8. -/
def boundaryOracles : Oracles Unit Unit Unit Unit :=
  { trivOracles with cosine := fun _ _ => .ok 0.8 }

/-- `trivOracles` with predicted labels `["walnut"]` and fuzzy ratio 86,
just above the 85 threshold. -/
def fuzzOracles : Oracles Unit Unit Unit Unit :=
  { trivOracles with
      inverse := fun _ => .ok ["walnut"]
      ratio := fun _ _ => .ok 86 }

/-- `trivOracles` with predicted labels `["milk"]`: the classifier
independently predicts the user allergen. -/
def exactOracles : Oracles Unit Unit Unit Unit :=
  { trivOracles with inverse := fun _ => .ok ["milk"] }

/-- `trivOracles` whose embedding computation raises with the given
message. -/
def embedFail (msg : String) : Oracles Unit Unit Unit Unit :=
  { trivOracles with embed := fun _ => .error msg }

/-- A minimal successful product record. -/
def apiOk : ApiData :=
  { status := 1
    ingredients_text := "water"
    brands := some ("BrandB")
    product_name := some ("NameN")
    image_small_url := some ("img")
    nutriments := [] }

/-- A product lookup whose HTTP fetch always succeeds with `apiOk`. -/
def fetchOk : Option String → Except String ApiData := fun _ => .ok apiOk

/-- A product lookup whose HTTP fetch raises. -/
def fetchFail : Option String → Except String ApiData :=
  fun _ => .error ("network down")

/-- A fixed hazard narrative. -/
def gen0 : GenOut := { hazard := "hz", long := "lg", recommend := "rc" }

/-- A scorer that always returns 7. -/
def xg0 : UserInput → Except String Int := fun _ => .ok 7

/-- The product tuple `mock_get_ingredients` extracts from `apiOk`. -/
def infoOk : ProductInfo :=
  { ingredients := ["water"]
    brands := "BrandB"
    product_name := "NameN"
    image := "img"
    nutrients_display := nutrientsDisplayOf apiOk
    nutrients_data := nutrientsDataOf apiOk }


/-! ## Characterization lemmas for the detector loops -/

theorem bind_ok_iff {α β : Type} (e : Except String α) (k : α → Except String β) (b : β) :
    (e >>= k) = Except.ok b ↔ ∃ a, e = Except.ok a ∧ k a = Except.ok b := by
  cases e <;> simp [Bind.bind, Except.bind]

theorem bind_isOk_iff {α β : Type} (e : Except String α) (k : α → Except String β) :
    (∃ b, (e >>= k) = Except.ok b) ↔
      ∃ a, e = Except.ok a ∧ ∃ b, k a = Except.ok b := by
  constructor
  · rintro ⟨b, hb⟩
    rw [bind_ok_iff] at hb
    obtain ⟨a, ha, hk⟩ := hb
    exact ⟨a, ha, b, hk⟩
  · rintro ⟨a, ha, b, hk⟩
    exact ⟨b, by rw [bind_ok_iff]; exact ⟨a, ha, hk⟩⟩

theorem fuzzyLoop_ok {S D C B : Type} (O : Oracles S D C B) (allergen : String)
    (predicted : List String) :
    ∀ (acc b : Finset String), fuzzyLoop O allergen predicted acc = Except.ok b →
      ∀ x, x ∈ b ↔ x ∈ acc ∨ (x ∈ predicted ∧ ratioHit O allergen x = true) := by
  induction predicted with
  | nil =>
      intro acc b h x
      simp only [fuzzyLoop, Except.ok.injEq] at h
      subst h
      simp
  | cons p rest ih =>
      intro acc b h x
      simp only [fuzzyLoop] at h
      rw [bind_ok_iff] at h
      obtain ⟨r, hr, hrest⟩ := h
      have hx := ih _ _ hrest x
      have hhit : ratioHit O allergen p = decide (r > 85) := by
        simp [ratioHit, hr]
      by_cases hgt : r > 85
      · rw [if_pos hgt] at hx
        rw [hx]
        simp only [Finset.mem_insert, List.mem_cons]
        constructor
        · rintro (⟨rfl | hacc⟩ | ⟨hr2, hh⟩)
          · exact Or.inr ⟨Or.inl rfl, by simp [hhit, hgt]⟩
          · exact Or.inl (by assumption)
          · exact Or.inr ⟨Or.inr hr2, hh⟩
        · rintro (hacc | ⟨rfl | hr2, hh⟩)
          · exact Or.inl (Or.inr hacc)
          · exact Or.inl (Or.inl rfl)
          · exact Or.inr ⟨hr2, hh⟩
      · rw [if_neg hgt] at hx
        rw [hx]
        simp only [List.mem_cons]
        constructor
        · rintro (hacc | ⟨hr2, hh⟩)
          · exact Or.inl hacc
          · exact Or.inr ⟨Or.inr hr2, hh⟩
        · rintro (hacc | ⟨rfl | hr2, hh⟩)
          · exact Or.inl hacc
          · exact absurd hh (by simp [hhit, hgt])
          · exact Or.inr ⟨hr2, hh⟩

theorem fuzzyLoop_isOk_iff {S D C B : Type} (O : Oracles S D C B)
    (allergen : String) (predicted : List String) :
    ∀ acc, (∃ b, fuzzyLoop O allergen predicted acc = Except.ok b) ↔
      ∀ p ∈ predicted, ∃ r, O.ratio allergen p = Except.ok r := by
  induction predicted with
  | nil => intro acc; simp [fuzzyLoop]
  | cons p rest ih =>
      intro acc
      simp only [fuzzyLoop]
      rw [bind_isOk_iff]
      constructor
      · rintro ⟨r, hr, hb⟩
        intro q hq
        rcases List.mem_cons.mp hq with rfl | hq'
        · exact ⟨r, hr⟩
        · exact ((ih _).mp hb) q hq'
      · intro hall
        obtain ⟨r, hr⟩ := hall p (List.mem_cons_self p rest)
        exact ⟨r, hr, (ih _).mpr (fun q hq => hall q (List.mem_cons_of_mem _ hq))⟩

theorem mainLoop_ok {S D C B : Type} (O : Oracles S D C B) (xb : D)
    (predicted : List String) :
    ∀ (pairs : List (String × D)) (acc b : Finset String),
      mainLoop O xb predicted pairs acc = Except.ok b →
      ∀ x, x ∈ b ↔ x ∈ acc
        ∨ (∃ ae, ae ∈ pairs ∧ ae.1 = x ∧ cosHit O xb ae.2 = true)
        ∨ (x ∈ predicted ∧ ∃ ae, ae ∈ pairs ∧ ratioHit O ae.1 x = true) := by
  intro pairs
  induction pairs with
  | nil =>
      intro acc b h x
      simp only [mainLoop, Except.ok.injEq] at h
      subst h
      simp
  | cons ae rest ih =>
      obtain ⟨a, e⟩ := ae
      intro acc b h x
      simp only [mainLoop] at h
      rw [bind_ok_iff] at h
      obtain ⟨s, hs, h⟩ := h
      rw [bind_ok_iff] at h
      obtain ⟨acc2, hacc2, hmain⟩ := h
      have hxb := ih _ _ hmain x
      have hxacc2 := fuzzyLoop_ok O a predicted _ _ hacc2 x
      have hch : cosHit O xb e = decide (s > 0.8) := by
        simp [cosHit, hs]
      rw [hxb, hxacc2]
      by_cases hgt : s > 0.8
      · rw [if_pos hgt]
        simp only [Finset.mem_insert, List.mem_cons]
        constructor
        · rintro (((rfl | hacc) | ⟨hpr, hrh⟩) | ⟨ae', hae', h1, h2⟩ | ⟨hpr, ae', hae', h2⟩)
          · exact Or.inr (Or.inl ⟨(x, e), Or.inl rfl, rfl, by simp [hch, hgt]⟩)
          · exact Or.inl hacc
          · exact Or.inr (Or.inr ⟨hpr, (a, e), Or.inl rfl, hrh⟩)
          · exact Or.inr (Or.inl ⟨ae', Or.inr hae', h1, h2⟩)
          · exact Or.inr (Or.inr ⟨hpr, ae', Or.inr hae', h2⟩)
        · rintro (hacc | ⟨ae', (he | hae'), h1, h2⟩ | ⟨hpr, ae', (he | hae'), h2⟩)
          · exact Or.inl (Or.inl (Or.inr hacc))
          · subst he
            exact Or.inl (Or.inl (Or.inl h1.symm))
          · exact Or.inr (Or.inl ⟨ae', hae', h1, h2⟩)
          · subst he
            exact Or.inl (Or.inr ⟨hpr, h2⟩)
          · exact Or.inr (Or.inr ⟨hpr, ae', hae', h2⟩)
      · rw [if_neg hgt]
        simp only [List.mem_cons]
        constructor
        · rintro ((hacc | ⟨hpr, hrh⟩) | ⟨ae', hae', h1, h2⟩ | ⟨hpr, ae', hae', h2⟩)
          · exact Or.inl hacc
          · exact Or.inr (Or.inr ⟨hpr, (a, e), Or.inl rfl, hrh⟩)
          · exact Or.inr (Or.inl ⟨ae', Or.inr hae', h1, h2⟩)
          · exact Or.inr (Or.inr ⟨hpr, ae', Or.inr hae', h2⟩)
        · rintro (hacc | ⟨ae', (he | hae'), h1, h2⟩ | ⟨hpr, ae', (he | hae'), h2⟩)
          · exact Or.inl (Or.inl hacc)
          · subst he
            subst h1
            simp [hch, hgt] at h2
          · exact Or.inr (Or.inl ⟨ae', hae', h1, h2⟩)
          · subst he
            exact Or.inl (Or.inr ⟨hpr, h2⟩)
          · exact Or.inr (Or.inr ⟨hpr, ae', hae', h2⟩)

theorem mainLoop_isOk_iff {S D C B : Type} (O : Oracles S D C B) (xb : D)
    (predicted : List String) :
    ∀ (pairs : List (String × D)) acc,
      (∃ b, mainLoop O xb predicted pairs acc = Except.ok b) ↔
      ∀ ae ∈ pairs, (∃ s, O.cosine xb ae.2 = Except.ok s) ∧
        ∀ p ∈ predicted, ∃ r, O.ratio ae.1 p = Except.ok r := by
  intro pairs
  induction pairs with
  | nil => intro acc; simp [mainLoop]
  | cons ae rest ih =>
      obtain ⟨a, e⟩ := ae
      intro acc
      simp only [mainLoop]
      rw [bind_isOk_iff]
      constructor
      · rintro ⟨s, hs, hb⟩
        rw [bind_isOk_iff] at hb
        obtain ⟨acc2, hacc2, hb⟩ := hb
        intro ae' hae'
        rcases List.mem_cons.mp hae' with rfl | hae''
        · exact ⟨⟨s, hs⟩, (fuzzyLoop_isOk_iff O a predicted _).mp ⟨acc2, hacc2⟩⟩
        · exact ((ih _).mp hb) ae' hae''
      · intro hall
        obtain ⟨⟨s, hs⟩, hratios⟩ := hall (a, e) (List.mem_cons_self _ rest)
        refine ⟨s, hs, ?_⟩
        rw [bind_isOk_iff]
        obtain ⟨acc2, hacc2⟩ := (fuzzyLoop_isOk_iff O a predicted
          (if s > 0.8 then insert a acc else acc)).mpr hratios
        exact ⟨acc2, hacc2, (ih _).mpr (fun ae' hae' => hall ae' (List.mem_cons_of_mem _ hae'))⟩

theorem mapME_ok_cons {α β : Type} {f : α → Except String β} {a : α} {l : List α}
    {r : List β} (h : mapME f (a :: l) = Except.ok r) :
    ∃ b rest, f a = Except.ok b ∧ mapME f l = Except.ok rest ∧ r = b :: rest := by
  simp only [mapME] at h
  rw [bind_ok_iff] at h
  obtain ⟨b, hb, h⟩ := h
  rw [bind_ok_iff] at h
  obtain ⟨rest, hrest, h⟩ := h
  refine ⟨b, rest, hb, hrest, ?_⟩
  have h' : Except.ok (b :: rest) = Except.ok r := h
  exact (Except.ok.injEq _ _ ▸ h').symm

theorem mapME_ok_zip {α β : Type} {f : α → Except String β} :
    ∀ {l : List α} {r : List β}, mapME f l = Except.ok r →
      ∀ x y, (x, y) ∈ l.zip r → f x = Except.ok y := by
  intro l
  induction l with
  | nil => intro r h x y hxy; simp at hxy
  | cons a l ih =>
      intro r h x y hxy
      obtain ⟨b, rest, hb, hrest, rfl⟩ := mapME_ok_cons h
      rw [List.zip_cons_cons] at hxy
      rcases List.mem_cons.mp hxy with heq | hmem
      · rw [Prod.mk.injEq] at heq
        obtain ⟨rfl, rfl⟩ := heq
        exact hb
      · exact ih hrest x y hmem

theorem mapME_ok_mem {α β : Type} {f : α → Except String β} :
    ∀ {l : List α} {r : List β}, mapME f l = Except.ok r →
      ∀ x ∈ l, ∃ y, (x, y) ∈ l.zip r ∧ f x = Except.ok y := by
  intro l
  induction l with
  | nil => intro r h x hx; simp at hx
  | cons a l ih =>
      intro r h x hx
      obtain ⟨b, rest, hb, hrest, rfl⟩ := mapME_ok_cons h
      rcases List.mem_cons.mp hx with rfl | hx'
      · exact ⟨b, by simp [List.zip_cons_cons], hb⟩
      · obtain ⟨y, hy, hfy⟩ := ih hrest x hx'
        exact ⟨y, by simp [List.zip_cons_cons, hy], hfy⟩

theorem mapME_isOk_iff {α β : Type} (f : α → Except String β) :
    ∀ (l : List α), (∃ r, mapME f l = Except.ok r) ↔ ∀ x ∈ l, ∃ y, f x = Except.ok y := by
  intro l
  induction l with
  | nil => simp [mapME]
  | cons a l ih =>
      simp only [mapME]
      rw [bind_isOk_iff]
      constructor
      · rintro ⟨b, hb, hrest⟩
        rw [bind_isOk_iff] at hrest
        obtain ⟨rest, hrest, _⟩ := hrest
        intro x hx
        rcases List.mem_cons.mp hx with rfl | hx'
        · exact ⟨b, hb⟩
        · exact (ih.mp ⟨rest, hrest⟩) x hx'
      · intro hall
        obtain ⟨b, hb⟩ := hall a (List.mem_cons_self _ _)
        obtain ⟨rest, hrest⟩ := ih.mpr (fun x hx => hall x (List.mem_cons_of_mem _ hx))
        refine ⟨b, hb, ?_⟩
        rw [bind_isOk_iff]
        exact ⟨rest, hrest, b :: rest, rfl⟩

theorem mapME_perm {α β : Type} {f : α → Except String β} {l l' : List α}
    (hp : List.Perm l l') :
    ∀ r, mapME f l = Except.ok r → ∃ r', mapME f l' = Except.ok r' ∧ List.Perm r r' := by
  induction hp with
  | nil => intro r h; exact ⟨r, h, List.Perm.refl r⟩
  | cons a hl ih =>
      intro r h
      obtain ⟨b, rest, hb, hrest, rfl⟩ := mapME_ok_cons h
      obtain ⟨rest', hrest', hpr⟩ := ih rest hrest
      refine ⟨b :: rest', ?_, List.Perm.cons b hpr⟩
      simp only [mapME, hb, hrest']
      rfl
  | swap a b l =>
      intro r h
      obtain ⟨vb, rest, hvb, hrest, rfl⟩ := mapME_ok_cons h
      obtain ⟨va, rest2, hva, hrest2, rfl⟩ := mapME_ok_cons hrest
      refine ⟨va :: vb :: rest2, ?_, List.Perm.swap va vb rest2⟩
      simp only [mapME, hva, hvb, hrest2]
      rfl
  | trans h1 h2 ih1 ih2 =>
      intro r h
      obtain ⟨r1, hr1, hp1⟩ := ih1 r h
      obtain ⟨r2, hr2, hp2⟩ := ih2 r1 hr1
      exact ⟨r2, hr2, hp1.trans hp2⟩

@[simp] theorem ok_bind {α β : Type} (a : α) (k : α → Except String β) :
    (Except.ok a >>= k) = k a := rfl

@[simp] theorem pure_eq_ok {α : Type} (a : α) :
    (pure a : Except String α) = Except.ok a := rfl

@[simp] theorem error_bind {α β : Type} (e : String) (k : α → Except String β) :
    (Except.error e >>= k) = Except.error e := rfl

theorem detectE_ok_elim {S D C B : Type} {O : Oracles S D C B}
    {ua ing : List String} {s : Finset String}
    (h : detectE O ua ing = Except.ok s) :
    ∃ users X_tfidf X_bert embs bp raw predicted detected,
      mapME (normalize_allergen O) ua = Except.ok users ∧
      O.tfidf (String.intercalate (", ") ing) = Except.ok X_tfidf ∧
      O.embed (String.intercalate (", ") ing) = Except.ok X_bert ∧
      mapME O.embed users = Except.ok embs ∧
      O.predictF (O.hstackF X_tfidf X_bert) = Except.ok bp ∧
      O.inverse bp = Except.ok raw ∧
      mapME (normalize_allergen O) raw = Except.ok predicted ∧
      mainLoop O X_bert predicted (users.zip embs) ∅ = Except.ok detected ∧
      s = detected ∪ (predicted.toFinset ∩ users.toFinset) := by
  simp only [detectE] at h
  rw [bind_ok_iff] at h
  obtain ⟨users, hu, h⟩ := h
  rw [bind_ok_iff] at h
  obtain ⟨xt, ht, h⟩ := h
  rw [bind_ok_iff] at h
  obtain ⟨xb, hx, h⟩ := h
  rw [bind_ok_iff] at h
  obtain ⟨embs, he, h⟩ := h
  rw [bind_ok_iff] at h
  obtain ⟨bp, hp, h⟩ := h
  rw [bind_ok_iff] at h
  obtain ⟨raw, hi, h⟩ := h
  rw [bind_ok_iff] at h
  obtain ⟨predicted, hn, h⟩ := h
  rw [bind_ok_iff] at h
  obtain ⟨detected, hm, h⟩ := h
  have h' : Except.ok (detected ∪ (predicted.toFinset ∩ users.toFinset)) = Except.ok s := h
  exact ⟨users, xt, xb, embs, bp, raw, predicted, detected,
    hu, ht, hx, he, hp, hi, hn, hm, (Except.ok.inj h').symm⟩

theorem simHit_eq_cosHit {S D C B : Type} {O : Oracles S D C B} {ing : List String}
    {x : String} {xb e : D}
    (hx : O.embed (String.intercalate (", ") ing) = Except.ok xb)
    (he : O.embed x = Except.ok e) : simHit O ing x = cosHit O xb e := by
  simp only [simHit, userSimilarity, hx, he, ok_bind, cosHit]

/-- Master characterization of membership in the detected-allergen set on
the success path: an element is detected iff it is a normalized user
allergen whose embedding similarity with the ingredient text exceeds 0.8,
or a normalized predicted label whose fuzzy ratio with some normalized
user allergen exceeds 85, or a normalized predicted label that is itself
a normalized user allergen. -/
theorem mem_detect_iff {S D C B : Type} {O : Oracles S D C B}
    {ua ing : List String} {s : Finset String} {users predicted : List String}
    (h : detectE O ua ing = Except.ok s)
    (hu : mapME (normalize_allergen O) ua = Except.ok users)
    (hp : predictedLabels O ing = Except.ok predicted) :
    ∀ x, x ∈ s ↔
      (x ∈ users ∧ simHit O ing x = true) ∨
      (x ∈ predicted ∧ ∃ u ∈ users, ratioHit O u x = true) ∨
      (x ∈ predicted ∧ x ∈ users) := by
  obtain ⟨users', xt, xb, embs, bp, raw, predicted', detected,
    hu', ht', hx', he', hp', hi', hn', hm', rfl⟩ := detectE_ok_elim h
  cases Except.ok.inj (hu.symm.trans hu')
  have hpl : predictedLabels O ing = Except.ok predicted' := by
    simp only [predictedLabels, ht', hx', hp', hi', ok_bind]
    exact hn'
  cases Except.ok.inj (hp.symm.trans hpl)
  intro x
  have hmem := mainLoop_ok O xb predicted _ _ _ hm' x
  simp only [Finset.mem_union, Finset.mem_inter, List.mem_toFinset, hmem,
    Finset.not_mem_empty, false_or]
  constructor
  · rintro ((⟨ae, hae, rfl, hch⟩ | ⟨hxp, ae, hae, hrh⟩) | ⟨h1, h2⟩)
    · obtain ⟨a1, e1⟩ := ae
      have hfe := mapME_ok_zip he' a1 e1 hae
      exact Or.inl ⟨(List.of_mem_zip hae).1, (simHit_eq_cosHit hx' hfe) ▸ hch⟩
    · obtain ⟨a1, e1⟩ := ae
      exact Or.inr (Or.inl ⟨hxp, a1, (List.of_mem_zip hae).1, hrh⟩)
    · exact Or.inr (Or.inr ⟨h1, h2⟩)
  · rintro (⟨hxu, hsh⟩ | ⟨hxp, u, huu, hrh⟩ | ⟨h1, h2⟩)
    · obtain ⟨e, hzip, hfe⟩ := mapME_ok_mem he' x hxu
      exact Or.inl (Or.inl ⟨(x, e), hzip, rfl, (simHit_eq_cosHit hx' hfe) ▸ hsh⟩)
    · obtain ⟨e, hzip, hfe⟩ := mapME_ok_mem he' u huu
      exact Or.inl (Or.inr ⟨hxp, (u, e), hzip, hrh⟩)
    · exact Or.inr ⟨h1, h2⟩

/-! ## Claim theorems -/

/-- C1: on the success path of `detect_allergens_from_ingredients` (the
path that fills `detected_allergens`), the `safe` flag is `some true`
exactly when the detected-allergen set is empty. -/
theorem detect_safety_invariant {S D C B : Type} (O : Oracles S D C B)
    (user_allergens ingredients : List String) (s : Finset String)
    (h : (detect_allergens_from_ingredients O user_allergens ingredients).detected_allergens
          = some s) :
    (detect_allergens_from_ingredients O user_allergens ingredients).safe
      = some true ↔ s = ∅ := by
  cases hE : detectE O user_allergens ingredients with
  | ok d =>
      unfold detect_allergens_from_ingredients at h ⊢
      rw [hE] at h ⊢
      simp only [Option.some.injEq] at h
      subst h
      simp
  | error e =>
      unfold detect_allergens_from_ingredients at h
      rw [hE] at h
      simp at h

/-- Witness for C1 at a concrete input. -/
theorem detect_safety_invariant_witness :
    (detect_allergens_from_ingredients trivOracles ["milk"] ["water"]).safe
      = some true ↔ (∅ : Finset String) = ∅ :=
  detect_safety_invariant trivOracles ["milk"] ["water"] ∅ (by
    have h08 : ¬((0:ℚ) > 0.8) := by norm_num
    simp [detect_allergens_from_ingredients, detectE, mapME, normalize_allergen,
      trivOracles, mainLoop, fuzzyLoop, h08])

/-- C2: if any oracle call inside the detector's `try` body raises (the
body evaluates to `Except.error e`), the detector catches it and returns
exactly the dictionary `{error: e, safe: False}` — no exception escapes
and `safe` is never `True` on this path. -/
theorem detect_failure_containment {S D C B : Type} (O : Oracles S D C B)
    (user_allergens ingredients : List String) (e : String)
    (h : detectE O user_allergens ingredients = Except.error e) :
    detect_allergens_from_ingredients O user_allergens ingredients =
      { detected_allergens := none, safe := some false, error := some e } := by
  unfold detect_allergens_from_ingredients
  rw [h]

/-- Witness for C2: a concrete oracle whose embedding computation
raises. -/
theorem detect_failure_containment_witness :
    detect_allergens_from_ingredients (embedFail ("boom")) ["milk"] ["water"] =
      { detected_allergens := none, safe := some false, error := some "boom" } :=
  detect_failure_containment (embedFail ("boom")) ["milk"] ["water"] "boom" (by
    simp [detectE, mapME, normalize_allergen, embedFail, trivOracles])

/-- C4: exact-match short-circuit — if a normalized user allergen
appears verbatim among the normalized classifier-predicted labels, it is
in the detected set of the success result, whatever the similarity and
ratio values. -/
theorem exact_match_short_circuit {S D C B : Type} (O : Oracles S D C B)
    (user_allergens ingredients : List String) (s : Finset String)
    (users predicted : List String) (x : String)
    (h : detectE O user_allergens ingredients = Except.ok s)
    (hu : mapME (normalize_allergen O) user_allergens = Except.ok users)
    (hp : predictedLabels O ingredients = Except.ok predicted)
    (hx : x ∈ users) (hpx : x ∈ predicted) : x ∈ s :=
  (mem_detect_iff h hu hp x).mpr (Or.inr (Or.inr ⟨hpx, hx⟩))

/-- Witness for C4: the classifier independently predicts the user
allergen `milk` while both similarities are 0; `milk` is detected. -/
theorem exact_match_short_circuit_witness :
    "milk" ∈ ({"milk"} : Finset String) :=
  exact_match_short_circuit exactOracles ["milk"] ["water"] {"milk"}
    ["milk"] ["milk"] "milk"
    (by
      have h08 : ¬((0:ℚ) > 0.8) := by norm_num
      have h85 : ¬((0:ℚ) > 85) := by norm_num
      simp [detectE, mapME, normalize_allergen, exactOracles, trivOracles,
        mainLoop, fuzzyLoop, h08, h85, show pyLower ("milk") = "milk" from rfl])
    (by simp [mapME, normalize_allergen, exactOracles, trivOracles,
        show pyLower ("milk") = "milk" from rfl])
    (by simp [predictedLabels, mapME, normalize_allergen, exactOracles, trivOracles,
        show pyLower ("milk") = "milk" from rfl])
    (by simp) (by simp)

/-- C10: provenance — on the success path, every detected allergen is a
normalized user allergen or a normalized classifier-predicted label. -/
theorem detected_provenance {S D C B : Type} (O : Oracles S D C B)
    (user_allergens ingredients : List String) (s : Finset String)
    (users predicted : List String)
    (h : detectE O user_allergens ingredients = Except.ok s)
    (hu : mapME (normalize_allergen O) user_allergens = Except.ok users)
    (hp : predictedLabels O ingredients = Except.ok predicted) :
    ∀ x ∈ s, x ∈ users ∨ x ∈ predicted := by
  intro x hx
  rcases (mem_detect_iff h hu hp x).mp hx with ⟨h1, _⟩ | ⟨h1, _⟩ | ⟨h1, h2⟩
  · exact Or.inl h1
  · exact Or.inr h1
  · exact Or.inl h2

/-- Witness for C10 at a concrete input and a concrete detected
element. -/
theorem detected_provenance_witness :
    "walnut" ∈ ["nuts"] ∨ "walnut" ∈ ["walnut"] :=
  detected_provenance fuzzOracles ["nuts"] ["water"] {"walnut"}
    ["nuts"] ["walnut"]
    (by
      have h08 : ¬((0:ℚ) > 0.8) := by norm_num
      have h85 : ((86:ℚ) > 85) := by norm_num
      simp [detectE, mapME, normalize_allergen, fuzzOracles, trivOracles,
        mainLoop, fuzzyLoop, h08, h85, show pyLower ("nuts") = "nuts" from rfl,
        show pyLower ("walnut") = "walnut" from rfl])
    (by simp [mapME, normalize_allergen, fuzzOracles, trivOracles,
        show pyLower ("nuts") = "nuts" from rfl])
    (by simp [predictedLabels, mapME, normalize_allergen, fuzzOracles, trivOracles,
        show pyLower ("walnut") = "walnut" from rfl])
    "walnut" (by simp)

/-- C5: the embedding-similarity rule is strictly greater-than 0.8 —
above the threshold the user allergen itself is detected; exactly at the
threshold it is detected only through the other two rules (fuzzy ratio
with some user allergen, or exact intersection). -/
theorem embedding_threshold {S D C B : Type} (O : Oracles S D C B)
    (user_allergens ingredients : List String) (s : Finset String)
    (users predicted : List String) (x : String) (r : ℚ)
    (h : detectE O user_allergens ingredients = Except.ok s)
    (hu : mapME (normalize_allergen O) user_allergens = Except.ok users)
    (hp : predictedLabels O ingredients = Except.ok predicted)
    (hx : x ∈ users)
    (hr : userSimilarity O ingredients x = Except.ok r) :
    (r > 0.8 → x ∈ s) ∧
    (r = 0.8 → (x ∈ s ↔ (x ∈ predicted ∧
      ((∃ u ∈ users, ratioHit O u x = true) ∨ x ∈ users)))) := by
  have hiff := mem_detect_iff h hu hp x
  constructor
  · intro hgt
    exact hiff.mpr (Or.inl ⟨hx, by simp [simHit, hr, hgt]⟩)
  · intro heq
    rw [hiff]
    constructor
    · rintro (⟨_, hsim⟩ | ⟨hp1, u, hu1, hr1⟩ | ⟨hp1, hu1⟩)
      · rw [heq] at hr
        simp [simHit, hr] at hsim
      · exact ⟨hp1, Or.inl ⟨u, hu1, hr1⟩⟩
      · exact ⟨hp1, Or.inr hu1⟩
    · rintro ⟨hp1, ⟨u, hu1, hr1⟩ | hu1⟩
      · exact Or.inr (Or.inl ⟨hp1, u, hu1, hr1⟩)
      · exact Or.inr (Or.inr ⟨hp1, hu1⟩)

/-- Witness for C5 at the exact boundary: similarity exactly 0.8, no
predicted labels, so nothing is detected. -/
theorem embedding_threshold_witness :
    ((0.8:ℚ) > 0.8 → "milk" ∈ (∅ : Finset String)) ∧
    ((0.8:ℚ) = 0.8 → ("milk" ∈ (∅ : Finset String) ↔ ("milk" ∈ ([] : List String) ∧
      ((∃ u ∈ ["milk"], ratioHit boundaryOracles u "milk" = true) ∨
        "milk" ∈ ["milk"])))) :=
  embedding_threshold boundaryOracles ["milk"] ["water"] ∅ ["milk"] [] "milk" 0.8
    (by
      have h08 : ¬((0.8:ℚ) > 0.8) := by norm_num
      have h85 : ¬((0:ℚ) > 85) := by norm_num
      simp [detectE, mapME, normalize_allergen, boundaryOracles, trivOracles,
        mainLoop, fuzzyLoop, h08, h85])
    (by simp [mapME, normalize_allergen, boundaryOracles, trivOracles,
        show pyLower ("milk") = "milk" from rfl])
    (by simp [predictedLabels, mapME, normalize_allergen, boundaryOracles, trivOracles])
    (by simp)
    (by simp [userSimilarity, boundaryOracles, trivOracles])

/-- C6: the fuzzy-ratio rule is strictly greater-than 85 — above the
threshold the predicted label is detected; exactly at the threshold the
pair itself contributes nothing (`ratioHit` is false) and the label is
detected only through the other rules. -/
theorem fuzzy_threshold {S D C B : Type} (O : Oracles S D C B)
    (user_allergens ingredients : List String) (s : Finset String)
    (users predicted : List String) (u p : String) (r : ℚ)
    (h : detectE O user_allergens ingredients = Except.ok s)
    (hu : mapME (normalize_allergen O) user_allergens = Except.ok users)
    (hp : predictedLabels O ingredients = Except.ok predicted)
    (hu1 : u ∈ users) (hp1 : p ∈ predicted)
    (hr : O.ratio u p = Except.ok r) :
    (r > 85 → p ∈ s) ∧
    (r = 85 → (ratioHit O u p = false ∧ (p ∈ s ↔
      ((p ∈ users ∧ simHit O ingredients p = true) ∨
        (∃ u' ∈ users, ratioHit O u' p = true) ∨ p ∈ users)))) := by
  have hiff := mem_detect_iff h hu hp p
  constructor
  · intro hgt
    exact hiff.mpr (Or.inr (Or.inl ⟨hp1, u, hu1, by simp [ratioHit, hr, hgt]⟩))
  · intro heq
    rw [heq] at hr
    refine ⟨by simp [ratioHit, hr], ?_⟩
    rw [hiff]
    constructor
    · rintro (⟨hpu, hsim⟩ | ⟨_, u', hu', hr'⟩ | ⟨_, hpu⟩)
      · exact Or.inl ⟨hpu, hsim⟩
      · exact Or.inr (Or.inl ⟨u', hu', hr'⟩)
      · exact Or.inr (Or.inr hpu)
    · rintro (⟨hpu, hsim⟩ | ⟨u', hu', hr'⟩ | hpu)
      · exact Or.inl ⟨hpu, hsim⟩
      · exact Or.inr (Or.inl ⟨hp1, u', hu', hr'⟩)
      · exact Or.inr (Or.inr ⟨hp1, hpu⟩)

/-- Witness for C6 above the boundary: ratio 86 between user allergen
`nuts` and predicted label `walnut` puts `walnut` in the result. -/
theorem fuzzy_threshold_witness :
    ((86:ℚ) > 85 → "walnut" ∈ ({"walnut"} : Finset String)) ∧
    ((86:ℚ) = 85 → (ratioHit fuzzOracles "nuts" "walnut" = false ∧
      ("walnut" ∈ ({"walnut"} : Finset String) ↔
        (("walnut" ∈ ["nuts"] ∧ simHit fuzzOracles ["water"] "walnut" = true) ∨
          (∃ u' ∈ ["nuts"], ratioHit fuzzOracles u' "walnut" = true) ∨
          "walnut" ∈ ["nuts"])))) :=
  fuzzy_threshold fuzzOracles ["nuts"] ["water"] {"walnut"}
    ["nuts"] ["walnut"] "nuts" "walnut" 86
    (by
      have h08 : ¬((0:ℚ) > 0.8) := by norm_num
      have h85 : ((86:ℚ) > 85) := by norm_num
      simp [detectE, mapME, normalize_allergen, fuzzOracles, trivOracles,
        mainLoop, fuzzyLoop, h08, h85, show pyLower ("nuts") = "nuts" from rfl,
        show pyLower ("walnut") = "walnut" from rfl])
    (by simp [mapME, normalize_allergen, fuzzOracles, trivOracles,
        show pyLower ("nuts") = "nuts" from rfl])
    (by simp [predictedLabels, mapME, normalize_allergen, fuzzOracles, trivOracles,
        show pyLower ("walnut") = "walnut" from rfl])
    (by simp) (by simp)
    (by simp [fuzzOracles, trivOracles])

theorem zip_pair_iff {S D C B : Type} {O : Oracles S D C B}
    {users : List String} {embs : List D}
    (he : mapME O.embed users = Except.ok embs) :
    ∀ a e, ((a, e) ∈ users.zip embs) ↔ (a ∈ users ∧ O.embed a = Except.ok e) := by
  intro a e
  constructor
  · intro hz
    exact ⟨(List.of_mem_zip hz).1, mapME_ok_zip he a e hz⟩
  · rintro ⟨ha, hf⟩
    obtain ⟨e0, hz0, hf0⟩ := mapME_ok_mem he a ha
    cases Except.ok.inj (hf.symm.trans hf0)
    exact hz0

/-- C7: permuting the user-allergen list does not change the success
result of the detector body (same detected set, hence same dictionary). -/
theorem detect_order_independence {S D C B : Type} (O : Oracles S D C B)
    (user_allergens user_allergens' ingredients : List String) (s : Finset String)
    (hperm : List.Perm user_allergens user_allergens')
    (h : detectE O user_allergens ingredients = Except.ok s) :
    detectE O user_allergens' ingredients = Except.ok s := by
  obtain ⟨users, xt, xb, embs, bp, raw, predicted, detected,
    hu, ht, hx, he, hpr, hi, hn, hm, rfl⟩ := detectE_ok_elim h
  obtain ⟨users', hu', hpermU⟩ := mapME_perm hperm users hu
  have hembOk : ∀ u ∈ users', ∃ y, O.embed u = Except.ok y := by
    intro u hu1
    obtain ⟨y, _, hy⟩ := mapME_ok_mem he u (hpermU.mem_iff.mpr hu1)
    exact ⟨y, hy⟩
  obtain ⟨embs', hembs'⟩ := (mapME_isOk_iff O.embed users').mpr hembOk
  have horig := (mainLoop_isOk_iff O xb predicted (users.zip embs) ∅).mp ⟨detected, hm⟩
  have hloopOk : ∃ b, mainLoop O xb predicted (users'.zip embs') ∅ = Except.ok b := by
    rw [mainLoop_isOk_iff]
    rintro ⟨a1, e1⟩ hae
    obtain ⟨ha1, hf1⟩ := (zip_pair_iff hembs' a1 e1).mp hae
    have ha1u : a1 ∈ users := hpermU.mem_iff.mpr ha1
    obtain ⟨e0, hz0, hf0⟩ := mapME_ok_mem he a1 ha1u
    cases Except.ok.inj (hf1.symm.trans hf0)
    exact horig (a1, e1) hz0
  obtain ⟨detected', hm'⟩ := hloopOk
  have hdeq : detected' = detected := by
    ext x
    rw [mainLoop_ok O xb predicted _ _ _ hm' x, mainLoop_ok O xb predicted _ _ _ hm x]
    constructor
    · rintro (habs | ⟨⟨a1, e1⟩, hz, h1, h2⟩ | ⟨hp1, ⟨a1, e1⟩, hz, h2⟩)
      · exact Or.inl habs
      · obtain ⟨ha1, hf1⟩ := (zip_pair_iff hembs' a1 e1).mp hz
        exact Or.inr (Or.inl ⟨(a1, e1),
          (zip_pair_iff he a1 e1).mpr ⟨hpermU.mem_iff.mpr ha1, hf1⟩, h1, h2⟩)
      · obtain ⟨ha1, hf1⟩ := (zip_pair_iff hembs' a1 e1).mp hz
        exact Or.inr (Or.inr ⟨hp1, (a1, e1),
          (zip_pair_iff he a1 e1).mpr ⟨hpermU.mem_iff.mpr ha1, hf1⟩, h2⟩)
    · rintro (habs | ⟨⟨a1, e1⟩, hz, h1, h2⟩ | ⟨hp1, ⟨a1, e1⟩, hz, h2⟩)
      · exact Or.inl habs
      · obtain ⟨ha1, hf1⟩ := (zip_pair_iff he a1 e1).mp hz
        exact Or.inr (Or.inl ⟨(a1, e1),
          (zip_pair_iff hembs' a1 e1).mpr ⟨hpermU.mem_iff.mp ha1, hf1⟩, h1, h2⟩)
      · obtain ⟨ha1, hf1⟩ := (zip_pair_iff he a1 e1).mp hz
        exact Or.inr (Or.inr ⟨hp1, (a1, e1),
          (zip_pair_iff hembs' a1 e1).mpr ⟨hpermU.mem_iff.mp ha1, hf1⟩, h2⟩)
  have hfin : detectE O user_allergens' ingredients =
      Except.ok (detected' ∪ (predicted.toFinset ∩ users'.toFinset)) := by
    simp only [detectE, hu', ht, hx, hembs', hpr, hi, hn, hm', ok_bind, pure_eq_ok]
  rw [hfin, hdeq]
  have htf : users.toFinset = users'.toFinset := by
    ext a
    simp [List.mem_toFinset, hpermU.mem_iff]
  rw [htf]

/-- Witness for C7: swapping a two-element allergen list leaves the
(empty) detected set unchanged. -/
theorem detect_order_independence_witness :
    detectE trivOracles ["milk", "soy"] ["water"] = Except.ok ∅ :=
  detect_order_independence trivOracles ["soy", "milk"] ["milk", "soy"] ["water"] ∅
    (List.Perm.swap "milk" "soy" [])
    (by
      have h08 : ¬((0:ℚ) > 0.8) := by norm_num
      simp [detectE, mapME, normalize_allergen, trivOracles, mainLoop, fuzzyLoop, h08])

/-- C8 (amended): whenever `BarcodeReader` yields the sentinel string,
`upload_base64` short-circuits with the typed barcode failure and makes
no external call. -/
theorem barcode_shortcircuit {S D C B : Type} (decoded : List String)
    (fetch : Option String → Except String ApiData) (gen : GenOut)
    (xg : UserInput → Except String Int) (O : Oracles S D C B)
    (h : BarcodeReader decoded = some ("error:barcode not detected")) :
    upload_pipeline decoded fetch gen xg O = (Response.barcodeError, []) := by
  simp [upload_pipeline, h]

/-- Witness for the amended C8: an image in which no barcode is decoded. -/
theorem barcode_shortcircuit_witness :
    upload_pipeline [] fetchFail gen0 xg0 trivOracles = (Response.barcodeError, []) :=
  barcode_shortcircuit [] fetchFail gen0 xg0 trivOracles rfl

/-- C8 (counterexample): when every decoded barcode is a URL,
`BarcodeReader` yields `None` instead of the sentinel, and the
orchestrator proceeds to the product lookup — an external call is made
although decoding produced no barcode string. -/
theorem barcode_shortcircuit_counterexample :
    BarcodeReader ["https://a.co"] = none ∧
    (upload_pipeline ["https://a.co"] fetchFail gen0 xg0 trivOracles).2
      = [ExtCall.productLookup none] :=
  ⟨rfl, rfl⟩

/-- C9 (amended): when the product lookup fails (`mock_get_ingredients`
returns `None`), the orchestrator does not produce a typed
product-not-found outcome: the unpacking failure is caught by the
function-level handler and surfaces as the generic
`"Failed to decode and save image: ..."` error. -/
theorem product_lookup_failure {S D C B : Type} (decoded : List String)
    (fetch : Option String → Except String ApiData) (gen : GenOut)
    (xg : UserInput → Except String Int) (O : Oracles S D C B)
    (h1 : ¬(BarcodeReader decoded = some ("error:barcode not detected")))
    (h2 : mock_get_ingredients (fetch (BarcodeReader decoded)) = none) :
    upload_pipeline decoded fetch gen xg O =
      (Response.genericError
        ("Failed to decode and save image: cannot unpack non-iterable NoneType object"),
       [ExtCall.productLookup (BarcodeReader decoded)]) := by
  simp [upload_pipeline, h1, h2]

/-- Witness for the amended C9 at a concrete input. -/
theorem product_lookup_failure_witness :
    upload_pipeline ["456"] fetchFail gen0 xg0 trivOracles =
      (Response.genericError
        ("Failed to decode and save image: cannot unpack non-iterable NoneType object"),
       [ExtCall.productLookup (BarcodeReader ["456"])]) :=
  product_lookup_failure ["456"] fetchFail gen0 xg0 trivOracles (by decide) rfl

/-- C9 (counterexample): a failing lookup yields the generic
image-decoding error response, not a typed product-not-found outcome. -/
theorem product_lookup_counterexample :
    mock_get_ingredients (fetchFail (some ("123"))) = none ∧
    (upload_pipeline ["123"] fetchFail gen0 xg0 trivOracles).1 =
      Response.genericError
        ("Failed to decode and save image: cannot unpack non-iterable NoneType object") :=
  ⟨rfl, rfl⟩

/-- C3 (amended): when allergen detection fails inside a successful
product flow, the assembled response reports `safe: false` (the `safe`
key is always present in the detector's dictionary, so the assembly's
`True` default is never exercised), but the detector's diagnostic
message is dropped: the response does not depend on it. -/
theorem upload_detect_failure {S D C B : Type} (decoded : List String)
    (fetch : Option String → Except String ApiData) (gen : GenOut)
    (xg : UserInput → Except String Int) (O O' : Oracles S D C B)
    (info : ProductInfo) (n : Int) (e e' : String)
    (h1 : ¬(BarcodeReader decoded = some ("error:barcode not detected")))
    (h2 : mock_get_ingredients (fetch (BarcodeReader decoded)) = some info)
    (h3 : xg (userInputOf info) = Except.ok n)
    (h4 : detectE O ["milk"] info.ingredients = Except.error e)
    (h4' : detectE O' ["milk"] info.ingredients = Except.error e') :
    (upload_pipeline decoded fetch gen xg O).1
      = (upload_pipeline decoded fetch gen xg O').1 ∧
    (upload_pipeline decoded fetch gen xg O).1.safeField = some false ∧
    ∀ (ua ing : List String),
      ((detect_allergens_from_ingredients O ua ing).safe).isSome = true := by
  refine ⟨?_, ?_, ?_⟩
  · simp [upload_pipeline, h1, h2, h3, detect_allergens_from_ingredients, h4, h4']
  · simp [upload_pipeline, h1, h2, h3, detect_allergens_from_ingredients, h4,
      Response.safeField]
  · intro ua ing
    cases hE : detectE O ua ing <;>
      simp [detect_allergens_from_ingredients, hE]

/-- Witness for the amended C3 at concrete inputs: two different
detector failure messages produce identical responses with
`safe: false`. -/
theorem upload_detect_failure_witness :
    (upload_pipeline ["123"] fetchOk gen0 xg0 (embedFail ("boom"))).1
      = (upload_pipeline ["123"] fetchOk gen0 xg0 (embedFail ("x"))).1 ∧
    (upload_pipeline ["123"] fetchOk gen0 xg0 (embedFail ("boom"))).1.safeField
      = some false ∧
    ∀ (ua ing : List String),
      ((detect_allergens_from_ingredients (embedFail ("boom")) ua ing).safe).isSome
        = true :=
  upload_detect_failure ["123"] fetchOk gen0 xg0 (embedFail ("boom"))
    (embedFail ("x")) infoOk 7 "boom" "x" (by decide) rfl rfl rfl rfl

/-- C3 (counterexample): a concrete detection failure whose message
`"boom"` is absent from the assembled response — the response equals the
one produced with an empty failure message, carries no diagnostic field,
and still reports `safe: false`.  The claimed "safe: false plus a
diagnostic message" does not hold of the assembled response. -/
theorem upload_detect_failure_counterexample :
    detectE (embedFail ("boom")) ["milk"] infoOk.ingredients = Except.error "boom" ∧
    (upload_pipeline ["123"] fetchOk gen0 xg0 (embedFail ("boom"))).1 =
      (upload_pipeline ["123"] fetchOk gen0 xg0 (embedFail (""))).1 ∧
    (upload_pipeline ["123"] fetchOk gen0 xg0 (embedFail ("boom"))).1.diagnostic
      = none ∧
    (upload_pipeline ["123"] fetchOk gen0 xg0 (embedFail ("boom"))).1.safeField
      = some false :=
  ⟨rfl, rfl, rfl, rfl⟩
